import Mathlib

/-!
# Verification of the bgcatalog specification

Shallow embedding of the bgcatalog repository's core logic:

* the browser barcode-scanner modules (`src/docs/js/scanner-ean.js`,
  `src/webapp/js/scanner.js`, `src/catalog/static/catalog/js/barcode_scanner.js`),
  translated function by function from the JavaScript source; and
* the stock reservation and availability-accounting subsystem, whose Python
  source (`catalog/models.py`, `catalog/cart_views.py`, `catalog/admin_views.py`)
  is not part of the source tree here, and which is therefore modelled from the
  specification (each such definition is marked `Modelled from the spec:`).

Timestamps are natural numbers (minutes).  JavaScript strings are Lean
`String`s; JavaScript `Map` objects are association lists.
-/

namespace BgCatalog

/-! ## Scanner module embeddings -/

/-- JavaScript `Number(c)` on a single digit character (the callers guard with
`/^\d+$/`, so the argument is always one of `'0'..'9'`). -/
def charToDigit (c : Char) : Nat := c.toNat - 48

/-- The weighted digit sum of the checksum loops in `scanner-ean.js`:
`sum += digits[i] * (i % 2 === 0 ? w1 : w2)` — weights alternate between
`w1` and `w2`, starting with `w1` at index 0. -/
def wsum (w1 w2 : Nat) : List Nat → Nat
  | [] => 0
  | d :: ds => d * w1 + wsum w2 w1 ds

/-- Common body of `validateEAN8` / `validateEAN13` in
`src/docs/js/scanner-ean.js` (lines 334–361): pop the last digit as the
checksum, weight-sum the remaining digits, and compare against
`(10 - (sum % 10)) % 10`.  On the empty list the JavaScript comparison
`0 === undefined` is `false`. -/
def checkDigitValid (w1 w2 : Nat) (digits : List Nat) : Bool :=
  !digits.isEmpty &&
    ((10 - (wsum w1 w2 digits.dropLast) % 10) % 10 == digits.getLastD 0)

/-- `validateEAN8` from `src/docs/js/scanner-ean.js` (lines 334–345):
weights `3,1` alternating, starting with 3. -/
def validateEAN8 (code : String) : Bool :=
  checkDigitValid 3 1 (code.data.map charToDigit)

/-- `validateEAN13` from `src/docs/js/scanner-ean.js` (lines 350–361):
weights `1,3` alternating, starting with 1. -/
def validateEAN13 (code : String) : Bool :=
  checkDigitValid 1 3 (code.data.map charToDigit)

/-- JavaScript `String.prototype.trim()`: strip whitespace from both ends. -/
def jsTrim (s : String) : String :=
  ⟨((s.data.dropWhile Char.isWhitespace).reverse.dropWhile Char.isWhitespace).reverse⟩

/-- The test `/^\d+$/.test(cleanCode)` from `isValidEAN`: non-empty and all
characters are decimal digits. -/
def allDigitsRegex (s : String) : Bool :=
  !s.data.isEmpty && s.data.all Char.isDigit

/-- `isValidEAN` from `src/docs/js/scanner-ean.js` (lines 307–329), with the
same branch order as the source: trim, digits-only test, then length 8
(EAN-8 checksum), length 13 (EAN-13 checksum), length 12 (UPC-A: prepend `'0'`
and check as EAN-13), then lengths 6–8 accepted without checksum ("UPC-E"),
otherwise rejected.  The leading `!code || typeof code !== 'string'` guard is
subsumed by the digits-only test on Lean `String`s. -/
def isValidEAN (code : String) : Bool :=
  let cleanCode := jsTrim code
  if !allDigitsRegex cleanCode then false
  else if cleanCode.length = 8 then validateEAN8 cleanCode
  else if cleanCode.length = 13 then validateEAN13 cleanCode
  else if cleanCode.length = 12 then validateEAN13 ("0" ++ cleanCode)
  else if 6 ≤ cleanCode.length ∧ cleanCode.length ≤ 8 then true
  else false

/-- The EAN-13 check equation exactly as claim C10 words it, over the integers:
the last digit equals `((10 − S) mod 10) mod 10` where `S` is the sum of the
first 12 digits weighted alternately `1,3` starting with weight 1. -/
def eanEq13 (ds : List Nat) : Prop :=
  (ds.getLastD 0 : Int) = ((10 - (wsum 1 3 (ds.take 12) : Int)) % 10) % 10

/-- The analogous EAN-8 equation of claim C10: weights `3,1` starting with
weight 3 over the first 7 digits. -/
def eanEq8 (ds : List Nat) : Prop :=
  (ds.getLastD 0 : Int) = ((10 - (wsum 3 1 (ds.take 7) : Int)) % 10) % 10

/-- Acceptance condition as worded by claim C10: the trimmed string is all
digits and one of the four cases (a) length 13 with the EAN-13 equation,
(b) length 8 with the EAN-8 equation, (c) length 12 with `'0'` prepended
satisfying the EAN-13 equation, (d) length 6 or 7 with no checksum at all. -/
def eanClaimAccepts (s : String) : Prop :=
  let t := jsTrim s
  (∀ c ∈ t.data, c.isDigit) ∧
    ((t.length = 13 ∧ eanEq13 (t.data.map charToDigit))
      ∨ (t.length = 8 ∧ eanEq8 (t.data.map charToDigit))
      ∨ (t.length = 12 ∧ eanEq13 (("0" ++ t).data.map charToDigit))
      ∨ t.length = 6 ∨ t.length = 7)

instance (s : String) : Decidable (eanClaimAccepts s) := by
  unfold eanClaimAccepts eanEq13 eanEq8
  exact inferInstance

/-- `isValidBarcode` from `src/webapp/js/scanner.js` (lines 187–203): keep
only the digit characters and accept exactly when their count is between
8 and 18; no checksum of any kind is computed. -/
def isValidBarcode (code : String) : Bool :=
  let digits := code.data.filter Char.isDigit
  if digits.length < 8 then false
  else if digits.length > 18 then false
  else true

/-- State of the closure installed by `setupQuaggaListeners` in
`src/catalog/static/catalog/js/barcode_scanner.js` (lines 510–528):
`lastDetectionTime` and `lastCode`. -/
structure ListenerState where
  lastDetectionTime : Nat
  lastCode : Option String
  deriving DecidableEq

/-- Initial listener state (`lastDetectionTime = 0`, `lastCode = null`). -/
def initListenerState : ListenerState := { lastDetectionTime := 0, lastCode := none }

/-- One `Quagga.onDetected` callback invocation from `setupQuaggaListeners` in
`barcode_scanner.js`: accept when `code.length >= 8` and the code differs from
`lastCode` or more than 1000 ms have passed; on acceptance record the code and
time.  Returns the new state and whether `onBarcodeDetected` fired. -/
def quaggaDetectedStep (st : ListenerState) (code : String) (now : Nat) :
    ListenerState × Bool :=
  if 8 ≤ code.length ∧ (st.lastCode ≠ some code ∨ 1000 < now - st.lastDetectionTime) then
    ({ lastDetectionTime := now, lastCode := some code }, true)
  else (st, false)

/-- Lookup in the `detectionHistory` JavaScript `Map` of `scanner-ean.js`,
modelled as an association list keyed by the code string. -/
def lookupHist : List (String × Nat) → String → Option Nat
  | [], _ => none
  | (c, t) :: hist, code => if c = code then some t else lookupHist hist code

/-- `detectionHistory.set(code, now)`: replace the entry for `code`, or add it. -/
def setHist : List (String × Nat) → String → Nat → List (String × Nat)
  | [], code, now => [(code, now)]
  | (c, t) :: hist, code, now =>
      if c = code then (c, now) :: hist else (c, t) :: setHist hist code now

/-- `handleEANDetection` from `src/docs/js/scanner-ean.js` (lines 255–302):
ignore a repeat of the same code within 2000 ms; otherwise record the
detection time and accept exactly when `isValidEAN` holds.  Returns the new
history and whether the detection was accepted (callback scheduled). -/
def handleEANDetection (hist : List (String × Nat)) (code : String) (now : Nat) :
    List (String × Nat) × Bool :=
  match lookupHist hist code with
  | some last =>
      if now - last < 2000 then (hist, false)
      else (setHist hist code now, isValidEAN code)
  | none => (setHist hist code now, isValidEAN code)

/-! ## Stock reservation subsystem

The Python source of `catalog/models.py` / `catalog/cart_views.py` /
`catalog/admin_views.py` is not present in the source tree (only the
documentation `STOCK_RESERVATION_SYSTEM.md` and the project specification
describe it), so the subsystem is modelled from the spec (§3–§4 of spec.md).
Timestamps and durations are in minutes. -/

/-- Modelled from the spec: reservation lifecycle states (§4.2); `active` is
the only non-terminal state. -/
inductive RStatus where
  | active
  | confirmed
  | cancelled
  | expired
  deriving DecidableEq

/-- Terminal statuses (§4.2): `confirmed`, `cancelled`, `expired`. -/
def RStatus.isTerminal : RStatus → Bool
  | .active => false
  | _ => true

/-- Modelled from the spec: the admin events that drive the reservation state
machine (§4.2 transition table). -/
inductive ResEvent where
  | confirmEv
  | cancelEv
  | extendEv
  deriving DecidableEq

/-- Modelled from the spec: the error taxonomy of §7 (`InsufficientStockError`
with item/requested/available, `InvalidStateTransitionError` with
reservation/from-status/attempted event, `NotFoundError`). -/
inductive ResError where
  | insufficientStock (itemRef requested available : Nat)
  | invalidStateTransition (reservationRef : Nat) (fromStatus : RStatus) (attempted : ResEvent)
  | notFound (ref : Nat)
  deriving DecidableEq

/-- Modelled from the spec: a Catalog Item (§3) — opaque identifier,
`physical_stock`, and the informational `sold_flag` / `sold_at`. -/
structure Item where
  id : Nat
  physicalStock : Nat
  soldFlag : Bool
  soldAt : Option Nat
  deriving DecidableEq

/-- Modelled from the spec: a Reservation (§3) — identifier, item reference,
quantity, status, creation and expiry timestamps, the `confirmed_at` /
`terminal_at` terminal timestamps, the opaque customer contact bag, and the
append-only `admin_notes`. -/
structure Reservation where
  id : Nat
  itemRef : Nat
  quantity : Nat
  status : RStatus
  createdAt : Nat
  expiresAt : Nat
  confirmedAt : Option Nat
  terminalAt : Option Nat
  customerContact : String
  adminNotes : List String
  deriving DecidableEq

/-- Modelled from the spec: the persistent store — the catalog items, the
reservation ledger, and a fresh-identifier counter. -/
structure SystemState where
  items : List Item
  reservations : List Reservation
  nextId : Nat
  deriving DecidableEq

/-- Modelled from the spec: default hold duration of 30 minutes (§3, §4.3). -/
def defaultHoldDuration : Nat := 30

/-- Update the first list element satisfying `p` (a row update keyed by a
unique identifier). -/
def updateFirst {α : Type} (p : α → Bool) (f : α → α) : List α → List α
  | [] => []
  | x :: xs => if p x then f x :: xs else x :: updateFirst p f xs

/-- Modelled from the spec: the quantity committed to item `itemId` — the sum
of the quantities of reservations on it whose `status == active` and
`now < expires_at` (§4.1: an active reservation whose expiry has passed is not
counted, even before the sweep updates its row). -/
def activeCommitted (itemId now : Nat) : List Reservation → Nat
  | [] => 0
  | r :: rs =>
      (if r.itemRef = itemId ∧ r.status = RStatus.active ∧ now < r.expiresAt
        then r.quantity else 0) + activeCommitted itemId now rs

/-- Modelled from the spec: `available_quantity(item)` (§4.1) — `physical_stock`
minus the live active-reservation sum, floored at 0 (natural subtraction). -/
def availableQuantity (st : SystemState) (itemId now : Nat) : Nat :=
  match st.items.find? (fun it => it.id == itemId) with
  | none => 0
  | some it => it.physicalStock - activeCommitted itemId now st.reservations

/-- Modelled from the spec: `is_purchasable(item)` (§4.1). -/
def isPurchasable (st : SystemState) (itemId now : Nat) : Bool :=
  0 < availableQuantity st itemId now

/-- The `active` reservation row the checkout transaction writes for one line:
fresh identifier, `created_at = now`, `expires_at = now + default_hold_duration`. -/
def checkoutRow (st : SystemState) (itemId qty now : Nat) (contact : String) : Reservation :=
  { id := st.nextId, itemRef := itemId, quantity := qty,
    status := RStatus.active, createdAt := now,
    expiresAt := now + defaultHoldDuration,
    confirmedAt := none, terminalAt := none,
    customerContact := contact, adminNotes := [] }

/-- The state after inserting one checkout line's reservation row. -/
def checkoutInsert (st : SystemState) (itemId qty now : Nat) (contact : String) : SystemState :=
  { st with
    reservations := st.reservations ++ [checkoutRow st itemId qty now contact]
    nextId := st.nextId + 1 }

/-- Modelled from the spec: the per-line body of the checkout transaction
(§4.3) — for each `(item_ref, quantity)` line in order, re-validate
`available_quantity` against the state as updated by the earlier lines of the
same batch, fail the whole batch with `InsufficientStockError` on any
shortfall, and otherwise append one `active` reservation with
`created_at = now` and `expires_at = now + default_hold_duration`. -/
def checkoutGo (now : Nat) (contact : String) :
    List (Nat × Nat) → SystemState → Except ResError (SystemState × List Nat)
  | [], st => Except.ok (st, [])
  | (itemId, qty) :: rest, st =>
      match st.items.find? (fun it => it.id == itemId) with
      | none => Except.error (ResError.notFound itemId)
      | some _ =>
          if qty > availableQuantity st itemId now then
            Except.error (ResError.insufficientStock itemId qty (availableQuantity st itemId now))
          else
            match checkoutGo now contact rest (checkoutInsert st itemId qty now contact) with
            | Except.error e => Except.error e
            | Except.ok (stf, ids) => Except.ok (stf, st.nextId :: ids)

/-- Modelled from the spec: the checkout transaction (§4.3), atomic and
all-or-nothing — an error leaves the caller with the original state and
returns no reservation identifiers. -/
def checkout (st : SystemState) (lines : List (Nat × Nat)) (contact : String)
    (now : Nat) : Except ResError (SystemState × List Nat) :=
  checkoutGo now contact lines st

/-- Modelled from the spec: `confirm(notes)` on a reservation (§4.2) — only
from `active`; decrement the item's `physical_stock` by `quantity` (failing
with `InsufficientStockError` when `quantity > physical_stock`), set the
item's `sold_flag` (and `sold_at`) when the result is 0, and record
`confirmed_at` / `terminal_at`. -/
def confirmReservation (st : SystemState) (rid now : Nat) (notes : String) :
    Except ResError SystemState :=
  match st.reservations.find? (fun r => r.id == rid) with
  | none => Except.error (ResError.notFound rid)
  | some r =>
      if r.status = RStatus.active then
        match st.items.find? (fun it => it.id == r.itemRef) with
        | none => Except.error (ResError.notFound r.itemRef)
        | some it =>
            if r.quantity > it.physicalStock then
              Except.error (ResError.insufficientStock r.itemRef r.quantity it.physicalStock)
            else
              let newStock := it.physicalStock - r.quantity
              Except.ok
                { st with
                  items := updateFirst (fun i => i.id == r.itemRef)
                    (fun i =>
                      { i with
                        physicalStock := newStock
                        soldFlag := if newStock = 0 then true else i.soldFlag
                        soldAt := if newStock = 0 then some now else i.soldAt })
                    st.items,
                  reservations := updateFirst (fun x => x.id == rid)
                    (fun x =>
                      { x with
                        status := RStatus.confirmed
                        confirmedAt := some now
                        terminalAt := some now
                        adminNotes := x.adminNotes ++ [notes] })
                    st.reservations }
      else Except.error (ResError.invalidStateTransition rid r.status ResEvent.confirmEv)

/-- Modelled from the spec: `cancel(notes)` on a reservation (§4.2) — only
from `active`; no stock mutation, record `terminal_at`. -/
def cancelReservation (st : SystemState) (rid now : Nat) (notes : String) :
    Except ResError SystemState :=
  match st.reservations.find? (fun r => r.id == rid) with
  | none => Except.error (ResError.notFound rid)
  | some r =>
      if r.status = RStatus.active then
        Except.ok
          { st with
            reservations := updateFirst (fun x => x.id == rid)
              (fun x =>
                { x with
                  status := RStatus.cancelled
                  terminalAt := some now
                  adminNotes := x.adminNotes ++ [notes] })
              st.reservations }
      else Except.error (ResError.invalidStateTransition rid r.status ResEvent.cancelEv)

/-- Modelled from the spec: `extend(minutes)` on a reservation (§4.2), with the
recommended reset-from-now semantics — only from `active`;
`expires_at := now + minutes`, no status change. -/
def extendReservation (st : SystemState) (rid now minutes : Nat) :
    Except ResError SystemState :=
  match st.reservations.find? (fun r => r.id == rid) with
  | none => Except.error (ResError.notFound rid)
  | some r =>
      if r.status = RStatus.active then
        Except.ok
          { st with
            reservations := updateFirst (fun x => x.id == rid)
              (fun x => { x with expiresAt := now + minutes })
              st.reservations }
      else Except.error (ResError.invalidStateTransition rid r.status ResEvent.extendEv)

/-- Modelled from the spec: `admin_notes` appendage, the one mutation permitted
on a terminal reservation (§4.2). -/
def appendAdminNotes (st : SystemState) (rid : Nat) (note : String) : SystemState :=
  { st with
    reservations := updateFirst (fun x => x.id == rid)
      (fun x => { x with adminNotes := x.adminNotes ++ [note] })
      st.reservations }

/-- Does the expiry sweep transition this row: `active` and `expires_at <= now`. -/
def sweepDue (now : Nat) (r : Reservation) : Bool :=
  r.status == RStatus.active && r.expiresAt ≤ now

/-- Action of the sweep on one row: a due row becomes `expired` with
`terminal_at` recorded; every other row is untouched. -/
def sweepOne (now : Nat) (r : Reservation) : Reservation :=
  if sweepDue now r then { r with status := RStatus.expired, terminalAt := some now }
  else r

/-- Modelled from the spec: the expiry sweep `cleanup_expired` (§4.4) — one
atomic pass transitioning every `active` reservation with `expires_at <= now`
into `expired`, returning the count of rows transitioned. -/
def cleanupExpired (st : SystemState) (now : Nat) : SystemState × Nat :=
  ({ st with reservations := st.reservations.map (sweepOne now) },
    (st.reservations.filter (sweepDue now)).length)

/-- A one-item catalog with `physical_stock = N` and an empty reservation
ledger — the initial state of the spec's testable properties (§8). -/
def mkStockState (N : Nat) : SystemState :=
  { items := [{ id := 0, physicalStock := N, soldFlag := false, soldAt := none }],
    reservations := [], nextId := 0 }

/-- Does this error carry `InsufficientStockError`? -/
def isInsufficientErr : ResError → Bool
  | .insufficientStock _ _ _ => true
  | _ => false

/-- Modelled from the spec: K concurrent single-unit checkout attempts on one
item.  Each checkout is one atomic, serializable unit of work and operations on
the same item are linearizable (§5), so a concurrent execution is observed as
some serial order of the K calls; since the calls are identical, that order is
arbitrary and the run is modelled as K sequential calls.  Returns the final
state, the number of successful calls, and the number of calls that failed
with `InsufficientStockError`. -/
def runKCheckouts (itemId now : Nat) : Nat → SystemState → SystemState × Nat × Nat
  | 0, st => (st, 0, 0)
  | Nat.succ k, st =>
      match checkout st [(itemId, 1)] "" now with
      | Except.ok (st', _) =>
          let rest := runKCheckouts itemId now k st'
          (rest.1, rest.2.1 + 1, rest.2.2)
      | Except.error e =>
          let rest := runKCheckouts itemId now k st
          (rest.1, rest.2.1, rest.2.2 + (if isInsufficientErr e then 1 else 0))

/-- The reservation that the checkout transaction creates for the cart line
`l = (item_ref, quantity)` (§4.3): `active`, `created_at = now`,
`expires_at = now + default_hold_duration`. -/
def lineReservation (now : Nat) (l : Nat × Nat) (nr : Reservation) : Prop :=
  nr.itemRef = l.1 ∧ nr.quantity = l.2 ∧ nr.status = RStatus.active ∧
    nr.createdAt = now ∧ nr.expiresAt = now + defaultHoldDuration

/-- Spec §8 "Confirm decrements correctly": reserve 2 of 5 units at time 0 and
confirm at time 10; report the item's `physical_stock` and `available_quantity`. -/
def confirmDemo : Option (Nat × Nat) :=
  match checkout (mkStockState 5) [(0, 2)] "customer" 0 with
  | Except.error _ => none
  | Except.ok (st1, _) =>
      match confirmReservation st1 0 10 "sold" with
      | Except.error _ => none
      | Except.ok st2 =>
          match st2.items.find? (fun i => i.id == 0) with
          | none => none
          | some it => some (it.physicalStock, availableQuantity st2 0 10)

/-- Spec §8 "Cancel releases fully": reserve 2 of 5 units at time 0 and cancel
at time 5; report the item's `physical_stock` and `available_quantity`. -/
def cancelDemo : Option (Nat × Nat) :=
  match checkout (mkStockState 5) [(0, 2)] "customer" 0 with
  | Except.error _ => none
  | Except.ok (st1, _) =>
      match cancelReservation st1 0 5 "released" with
      | Except.error _ => none
      | Except.ok st2 =>
          match st2.items.find? (fun i => i.id == 0) with
          | none => none
          | some it => some (it.physicalStock, availableQuantity st2 0 5)

/-- Spec §8 "Extend resets timer": a reservation created at T = 0 with a
30-minute hold, extended by 30 minutes at T+20.  Reports its new expiry, the
row count and its status after a sweep at T+45, and the row count and its
status after a sweep at T+51. -/
def extendDemo : Option (Nat × Nat × Bool × Nat × Bool) :=
  match checkout (mkStockState 5) [(0, 1)] "customer" 0 with
  | Except.error _ => none
  | Except.ok (st1, _) =>
      match extendReservation st1 0 20 30 with
      | Except.error _ => none
      | Except.ok st2 =>
          match st2.reservations.find? (fun x => x.id == 0) with
          | none => none
          | some r =>
              match (cleanupExpired st2 45).1.reservations.find? (fun x => x.id == 0),
                  (cleanupExpired st2 51).1.reservations.find? (fun x => x.id == 0) with
              | some r45, some r51 =>
                  some (r.expiresAt, (cleanupExpired st2 45).2,
                    r45.status == RStatus.active, (cleanupExpired st2 51).2,
                    r51.status == RStatus.expired)
              | _, _ => none

/-! ## Theorems: scanner claims -/

/-- The checksum comparison of `scanner-ean.js`, characterised: for a digit
list of length `n + 1`, the popped-checksum comparison holds exactly when the
last digit satisfies the claim's integer check equation over the first `n`
digits. -/
theorem checkDigitValid_iff (w1 w2 n : Nat) (ds : List Nat) (h : ds.length = n + 1) :
    checkDigitValid w1 w2 ds = true ↔
      ((ds.getLastD 0 : Int) = ((10 - (wsum w1 w2 (ds.take n) : Int)) % 10) % 10) := by
  cases ds with
  | nil => simp at h
  | cons a l =>
      have hdl : (a :: l).dropLast = (a :: l).take n := by
        rw [List.dropLast_eq_take, h]; simp
      simp only [checkDigitValid, hdl, List.isEmpty_cons, Bool.not_false, Bool.true_and,
        beq_iff_eq]
      omega

theorem length_eq_data_length (s : String) : s.length = s.data.length := rfl

/-- C10: `isValidEAN(s)` returns true exactly when the trimmed `s` is all
digits and either (a) it has length 13 and its last digit satisfies the EAN-13
check equation (weights alternately 1,3 starting with 1 over the first 12
digits), (b) length 8 with the analogous EAN-8 equation (weights 3,1 starting
with 3), (c) length 12 and `'0'` prepended satisfies the EAN-13 equation, or
(d) length 6 or 7, accepted with no checksum; in particular the length-8
"UPC-E" acceptance branch is unreachable, length 8 being decided by the EAN-8
checksum branch. -/
theorem isValidEAN_iff_claim (s : String) :
    isValidEAN s = true ↔ eanClaimAccepts s := by
  simp only [isValidEAN, eanClaimAccepts]
  generalize jsTrim s = t
  have hlen : t.length = t.data.length := rfl
  have hmaplen : (t.data.map charToDigit).length = t.length := by
    rw [List.length_map]; exact hlen.symm
  by_cases hall : allDigitsRegex t = true
  · have hdig : ∀ c ∈ t.data, c.isDigit := by
      have h := hall
      simp only [allDigitsRegex, Bool.and_eq_true, List.all_eq_true] at h
      exact h.2
    simp only [hall, Bool.not_true, Bool.false_eq_true, if_false]
    split_ifs with h8 h13 h12 h67
    · -- length 8: the EAN-8 checksum branch
      rw [validateEAN8, checkDigitValid_iff 3 1 7 _ (by rw [hmaplen, h8])]
      constructor
      · intro hv
        exact ⟨hdig, Or.inr (Or.inl ⟨h8, hv⟩)⟩
      · rintro ⟨-, ⟨h13', -⟩ | ⟨-, he⟩ | ⟨h12', -⟩ | h6 | h7⟩ <;> first | omega | exact he
    · -- length 13: the EAN-13 checksum branch
      rw [validateEAN13, checkDigitValid_iff 1 3 12 _ (by rw [hmaplen, h13])]
      constructor
      · intro hv
        exact ⟨hdig, Or.inl ⟨h13, hv⟩⟩
      · rintro ⟨-, ⟨-, he⟩ | ⟨h8', -⟩ | ⟨h12', -⟩ | h6 | h7⟩ <;> first | omega | exact he
    · -- length 12: UPC-A, checked as EAN-13 with a leading zero
      have hdl : ((("0" ++ t).data.map charToDigit)).length = 13 := by
        have : ("0" ++ t).data = '0' :: t.data := rfl
        simp [this, ← hlen, h12]
      rw [validateEAN13, checkDigitValid_iff 1 3 12 _ (by rw [hdl])]
      constructor
      · intro hv
        exact ⟨hdig, Or.inr (Or.inr (Or.inl ⟨h12, hv⟩))⟩
      · rintro ⟨-, ⟨h13', -⟩ | ⟨h8', -⟩ | ⟨-, he⟩ | h6 | h7⟩ <;> first | omega | exact he
    · -- length 6 or 7: accepted with no checksum
      have h67' : t.length = 6 ∨ t.length = 7 := by omega
      simp only [true_iff, iff_true]
      refine ⟨hdig, ?_⟩
      rcases h67' with h | h
      · exact Or.inr (Or.inr (Or.inr (Or.inl h)))
      · exact Or.inr (Or.inr (Or.inr (Or.inr h)))
    · -- every other length is rejected
      simp only [Bool.false_eq_true, false_iff]
      rintro ⟨-, ⟨h', -⟩ | ⟨h', -⟩ | ⟨h', -⟩ | h' | h'⟩ <;> omega
  · have hf : allDigitsRegex t = false := by
      exact Bool.eq_false_iff.mpr hall
    simp only [hf, Bool.not_false, if_true, Bool.false_eq_true, false_iff]
    rintro ⟨hdig, hc⟩
    have : ¬ (!t.data.isEmpty && t.data.all Char.isDigit) = true := by
      simpa [allDigitsRegex] using hall
    simp only [Bool.and_eq_true, Bool.not_eq_true', List.all_eq_true] at this
    have hemp : t.data.isEmpty = true := by
      by_contra hne
      exact this ⟨Bool.eq_false_iff.mpr hne ▸ rfl, hdig⟩
    have hlen0 : t.length = 0 := by
      rw [hlen, List.length_eq_zero]
      exact List.isEmpty_iff.mp hemp
    rcases hc with ⟨h', -⟩ | ⟨h', -⟩ | ⟨h', -⟩ | h' | h' <;> omega

/-- Witness for C10 at a concrete valid EAN-13. -/
theorem isValidEAN_iff_claim_witness :
    isValidEAN "4006381333931" = true ∧ eanClaimAccepts "4006381333931" :=
  ⟨by decide, (isValidEAN_iff_claim "4006381333931").mp (by decide)⟩

/-- Counterexample to C9: not every scanner module validates a checksum before
accepting a decoded code.  The code "00000001" has an invalid EAN-8 checksum
(by the repository's own `validateEAN8`, and `isValidEAN` rejects it), yet
`isValidBarcode` in `src/webapp/js/scanner.js` accepts it, and the
`Quagga.onDetected` listener of
`src/catalog/static/catalog/js/barcode_scanner.js` accepts it from the initial
listener state. -/
theorem scanner_checksum_cex :
    isValidBarcode "00000001" = true ∧
      (quaggaDetectedStep initListenerState "00000001" 5).2 = true ∧
      validateEAN8 "00000001" = false ∧
      isValidEAN "00000001" = false := by
  refine ⟨by decide, by decide, by decide, by decide⟩

/-- C9 amended: `scanner-ean.js` debounces duplicate reads (a repeat of the
same code within its 2000 ms window is never accepted a second time);
`barcode_scanner.js` debounces duplicate reads (same code within its 1000 ms
window is rejected) but accepts on length ≥ 8 alone, with no checksum; and
`scanner.js` (webapp) performs no checksum validation at all — its acceptance
is exactly that the code contains between 8 and 18 digit characters — and
keeps no duplicate window. -/
theorem lookupHist_setHist (hist : List (String × Nat)) (code : String) (now : Nat) :
    lookupHist (setHist hist code now) code = some now := by
  induction hist with
  | nil => simp [setHist, lookupHist]
  | cons p rest ih =>
      obtain ⟨c, tm⟩ := p
      by_cases hc : c = code
      · simp [setHist, hc, lookupHist]
      · simp [setHist, hc, lookupHist, ih]

theorem handleEANDetection_none (hist : List (String × Nat)) (code : String) (now : Nat)
    (h : lookupHist hist code = none) :
    handleEANDetection hist code now = (setHist hist code now, isValidEAN code) := by
  unfold handleEANDetection
  rw [h]

theorem handleEANDetection_dup (hist : List (String × Nat)) (code : String) (now last : Nat)
    (h : lookupHist hist code = some last) (hlt : now - last < 2000) :
    handleEANDetection hist code now = (hist, false) := by
  unfold handleEANDetection
  rw [h]
  show (if now - last < 2000 then (hist, false)
    else (setHist hist code now, isValidEAN code)) = (hist, false)
  rw [if_pos hlt]

theorem handleEANDetection_fresh (hist : List (String × Nat)) (code : String) (now last : Nat)
    (h : lookupHist hist code = some last) (hge : ¬ now - last < 2000) :
    handleEANDetection hist code now = (setHist hist code now, isValidEAN code) := by
  unfold handleEANDetection
  rw [h]
  show (if now - last < 2000 then (hist, false)
    else (setHist hist code now, isValidEAN code)) = (setHist hist code now, isValidEAN code)
  rw [if_neg hge]

theorem quaggaDetectedStep_pos (st : ListenerState) (code : String) (now : Nat)
    (h : 8 ≤ code.length ∧ (st.lastCode ≠ some code ∨ 1000 < now - st.lastDetectionTime)) :
    quaggaDetectedStep st code now
      = ({ lastDetectionTime := now, lastCode := some code }, true) := by
  unfold quaggaDetectedStep
  rw [if_pos h]

theorem quaggaDetectedStep_neg (st : ListenerState) (code : String) (now : Nat)
    (h : ¬ (8 ≤ code.length ∧ (st.lastCode ≠ some code ∨ 1000 < now - st.lastDetectionTime))) :
    quaggaDetectedStep st code now = (st, false) := by
  unfold quaggaDetectedStep
  rw [if_neg h]

theorem scanner_modules_amended :
    (∀ (hist : List (String × Nat)) (code : String) (now nxt : Nat),
        (handleEANDetection hist code now).2 = true →
        nxt - now < 2000 →
        (handleEANDetection (handleEANDetection hist code now).1 code nxt).2 = false) ∧
      (∀ (st : ListenerState) (code : String) (now nxt : Nat),
        (quaggaDetectedStep st code now).2 = true →
        nxt - now ≤ 1000 →
        (quaggaDetectedStep (quaggaDetectedStep st code now).1 code nxt).2 = false) ∧
      (∀ (st : ListenerState) (code : String) (now : Nat),
        (quaggaDetectedStep st code now).2 = true → 8 ≤ code.length) ∧
      (∀ code : String, isValidBarcode code = true ↔
        8 ≤ (code.data.filter Char.isDigit).length ∧
          (code.data.filter Char.isDigit).length ≤ 18) := by
  refine ⟨?_, ?_, ?_, ?_⟩
  · intro hist code now nxt hacc hwin
    have hset : (handleEANDetection hist code now).1 = setHist hist code now := by
      cases h : lookupHist hist code with
      | none => rw [handleEANDetection_none hist code now h]
      | some last =>
          by_cases hlt : now - last < 2000
          · rw [handleEANDetection_dup hist code now last h hlt] at hacc
            exact absurd hacc (by simp)
          · rw [handleEANDetection_fresh hist code now last h hlt]
    rw [hset,
      handleEANDetection_dup (setHist hist code now) code nxt now
        (lookupHist_setHist hist code now) hwin]
  · intro st code now nxt hacc hwin
    by_cases hc : 8 ≤ code.length ∧ (st.lastCode ≠ some code ∨ 1000 < now - st.lastDetectionTime)
    · rw [quaggaDetectedStep_pos st code now hc]
      show (quaggaDetectedStep ⟨now, some code⟩ code nxt).2 = false
      rw [quaggaDetectedStep_neg]
      rintro ⟨-, hor⟩
      rcases hor with hne | hlt
      · exact hne rfl
      · have h' : 1000 < nxt - now := hlt
        omega
    · rw [quaggaDetectedStep_neg st code now hc] at hacc
      exact absurd hacc (by simp)
  · intro st code now hacc
    by_cases hc : 8 ≤ code.length ∧ (st.lastCode ≠ some code ∨ 1000 < now - st.lastDetectionTime)
    · exact hc.1
    · rw [quaggaDetectedStep_neg st code now hc] at hacc
      exact absurd hacc (by simp)
  · intro code
    simp only [isValidBarcode]
    split_ifs with h1 h2 <;> simp <;> omega

/-- Witness for the amended C9 at concrete inputs: a valid EAN-8 accepted by
the EAN scanner at time 0 is rejected on repeat at time 100, and a code
accepted by the catalog listener at time 0 is rejected on repeat at time 500. -/
theorem scanner_modules_amended_witness :
    (handleEANDetection (handleEANDetection [] "96385074" 0).1 "96385074" 100).2 = false ∧
      (quaggaDetectedStep (quaggaDetectedStep initListenerState "12345678" 0).1
        "12345678" 500).2 = false :=
  ⟨scanner_modules_amended.1 [] "96385074" 0 100 (by decide) (by decide),
    scanner_modules_amended.2.1 initListenerState "12345678" 0 500 (by decide) (by decide)⟩

/-! ## Theorems: reservation subsystem helper lemmas -/

theorem find?_updateFirst {α : Type} (p : α → Bool) (f : α → α)
    (hf : ∀ x, p x = true → p (f x) = true) :
    ∀ xs : List α, (updateFirst p f xs).find? p = (xs.find? p).map f := by
  intro xs
  induction xs with
  | nil => rfl
  | cons x xs ih =>
      by_cases hx : p x = true
      · rw [updateFirst, if_pos hx, List.find?_cons_of_pos _ (hf x hx),
          List.find?_cons_of_pos _ hx, Option.map_some']
      · rw [updateFirst, if_neg hx, List.find?_cons_of_neg _ (by simpa using hx),
          List.find?_cons_of_neg _ (by simpa using hx), ih]

theorem find?_map_of_pred {α : Type} (g : α → α) (p : α → Bool)
    (hp : ∀ x, p (g x) = p x) :
    ∀ xs : List α, (xs.map g).find? p = (xs.find? p).map g := by
  intro xs
  induction xs with
  | nil => rfl
  | cons x xs ih =>
      by_cases hx : p x = true
      · rw [List.map_cons, List.find?_cons_of_pos _ (by rw [hp]; exact hx),
          List.find?_cons_of_pos _ hx, Option.map_some']
      · rw [List.map_cons, List.find?_cons_of_neg _ (by simp [hp]; simpa using hx),
          List.find?_cons_of_neg _ (by simpa using hx), ih]

theorem find?_append_left {α : Type} (p : α → Bool) (a : α) :
    ∀ xs ys : List α, xs.find? p = some a → (xs ++ ys).find? p = some a := by
  intro xs ys h
  induction xs with
  | nil => simp [List.find?] at h
  | cons x xs ih =>
      by_cases hx : p x = true
      · rw [List.find?_cons_of_pos _ hx] at h
        rw [List.cons_append, List.find?_cons_of_pos _ hx]
        exact h
      · rw [List.find?_cons_of_neg _ (by simpa using hx)] at h
        rw [List.cons_append, List.find?_cons_of_neg _ (by simpa using hx)]
        exact ih h

theorem activeCommitted_append (itemId now : Nat) (rs ts : List Reservation) :
    activeCommitted itemId now (rs ++ ts)
      = activeCommitted itemId now rs + activeCommitted itemId now ts := by
  induction rs with
  | nil => simp [activeCommitted]
  | cons r rs ih => rw [List.cons_append, activeCommitted, activeCommitted, ih]; omega

theorem sweepOne_id_eq (now : Nat) (r : Reservation) : (sweepOne now r).id = r.id := by
  unfold sweepOne
  split <;> rfl

theorem sweepOne_of_terminal (now : Nat) (r : Reservation)
    (h : r.status.isTerminal = true) : sweepOne now r = r := by
  unfold sweepOne sweepDue
  cases hs : r.status <;> simp_all [RStatus.isTerminal]

theorem sweepDue_sweepOne (now : Nat) (r : Reservation) :
    sweepDue now (sweepOne now r) = false := by
  unfold sweepOne
  by_cases h : sweepDue now r = true
  · rw [if_pos h]
    simp [sweepDue]
  · rw [if_neg (by simpa using h)]
    simpa using h

theorem sweepContrib (itemId now : Nat) (r : Reservation) :
    (if (sweepOne now r).itemRef = itemId ∧ (sweepOne now r).status = RStatus.active
        ∧ now < (sweepOne now r).expiresAt then (sweepOne now r).quantity else 0)
      = (if r.itemRef = itemId ∧ r.status = RStatus.active ∧ now < r.expiresAt
          then r.quantity else 0) := by
  by_cases h : sweepDue now r = true
  · have hexp : r.expiresAt ≤ now := by
      simp only [sweepDue, Bool.and_eq_true, beq_iff_eq, decide_eq_true_eq] at h
      exact h.2
    have hs : sweepOne now r = { r with status := RStatus.expired, terminalAt := some now } := by
      unfold sweepOne
      rw [if_pos h]
    rw [hs, if_neg, if_neg]
    · rintro ⟨-, -, hlt⟩
      omega
    · rintro ⟨-, hst, -⟩
      simp at hst
  · have hs : sweepOne now r = r := by
      unfold sweepOne
      rw [if_neg h]
    rw [hs]

theorem activeCommitted_sweep (itemId now : Nat) (rs : List Reservation) :
    activeCommitted itemId now (rs.map (sweepOne now)) = activeCommitted itemId now rs := by
  induction rs with
  | nil => rfl
  | cons r rs ih =>
      rw [List.map_cons, activeCommitted, activeCommitted, ih, sweepContrib]

/-! ## Theorems: reservation subsystem claims -/

/-- C2: for an existing catalog item, `available_quantity` equals
`physical_stock` minus the sum of the quantities of its reservations that are
`active` and not yet past expiry (an active reservation whose expiry has
passed is excluded even before the sweep updates its row), floored at 0;
consequently sweeping does not change it (the calculator self-corrects), and
it is never negative. -/
theorem availableQuantity_spec (st : SystemState) (itemId now : Nat) (it : Item)
    (hfind : st.items.find? (fun i => i.id == itemId) = some it) :
    ((availableQuantity st itemId now : Int)
        = max 0 ((it.physicalStock : Int)
            - (activeCommitted itemId now st.reservations : Int)))
      ∧ availableQuantity (cleanupExpired st now).1 itemId now
          = availableQuantity st itemId now
      ∧ 0 ≤ availableQuantity st itemId now := by
  refine ⟨?_, ?_, Nat.zero_le _⟩
  · unfold availableQuantity
    rw [hfind]
    show ((it.physicalStock - activeCommitted itemId now st.reservations : Nat) : Int)
      = max 0 ((it.physicalStock : Int) - (activeCommitted itemId now st.reservations : Int))
    omega
  · have hitems : (cleanupExpired st now).1.items = st.items := rfl
    have hres : (cleanupExpired st now).1.reservations
        = st.reservations.map (sweepOne now) := rfl
    unfold availableQuantity
    rw [hitems, hres, hfind]
    show it.physicalStock - activeCommitted itemId now (st.reservations.map (sweepOne now))
      = it.physicalStock - activeCommitted itemId now st.reservations
    rw [activeCommitted_sweep]

/-- Witness for C2: a concrete two-reservation state — one live hold of 2 and
one stale `active` hold of 1 whose expiry has passed — on an item with 5
units in stock. -/
theorem availableQuantity_spec_witness :
    availableQuantity
        { items := [{ id := 7, physicalStock := 5, soldFlag := false, soldAt := none }],
          reservations :=
            [{ id := 0, itemRef := 7, quantity := 2, status := RStatus.active,
               createdAt := 40, expiresAt := 70, confirmedAt := none, terminalAt := none,
               customerContact := "a", adminNotes := [] },
             { id := 1, itemRef := 7, quantity := 1, status := RStatus.active,
               createdAt := 0, expiresAt := 30, confirmedAt := none, terminalAt := none,
               customerContact := "b", adminNotes := [] }],
          nextId := 2 } 7 50 = 3
      ∧ 0 ≤ availableQuantity
        { items := [{ id := 7, physicalStock := 5, soldFlag := false, soldAt := none }],
          reservations :=
            [{ id := 0, itemRef := 7, quantity := 2, status := RStatus.active,
               createdAt := 40, expiresAt := 70, confirmedAt := none, terminalAt := none,
               customerContact := "a", adminNotes := [] },
             { id := 1, itemRef := 7, quantity := 1, status := RStatus.active,
               createdAt := 0, expiresAt := 30, confirmedAt := none, terminalAt := none,
               customerContact := "b", adminNotes := [] }],
          nextId := 2 } 7 50 :=
  ⟨by decide,
    (availableQuantity_spec _ 7 50
      { id := 7, physicalStock := 5, soldFlag := false, soldAt := none } (by decide)).2.2⟩

theorem checkoutGo_nil (now : Nat) (contact : String) (st : SystemState) :
    checkoutGo now contact [] st = Except.ok (st, []) := rfl

theorem checkoutGo_cons_notFound (now : Nat) (contact : String) (itemId qty : Nat)
    (rest : List (Nat × Nat)) (st : SystemState)
    (hit : st.items.find? (fun it => it.id == itemId) = none) :
    checkoutGo now contact ((itemId, qty) :: rest) st
      = Except.error (ResError.notFound itemId) := by
  simp only [checkoutGo, hit]

theorem checkoutGo_cons_insufficient (now : Nat) (contact : String) (itemId qty : Nat)
    (rest : List (Nat × Nat)) (st : SystemState) (it0 : Item)
    (hit : st.items.find? (fun it => it.id == itemId) = some it0)
    (hq : qty > availableQuantity st itemId now) :
    checkoutGo now contact ((itemId, qty) :: rest) st
      = Except.error (ResError.insufficientStock itemId qty (availableQuantity st itemId now)) := by
  simp only [checkoutGo, hit]
  rw [if_pos hq]

theorem checkoutGo_cons_ok (now : Nat) (contact : String) (itemId qty : Nat)
    (rest : List (Nat × Nat)) (st : SystemState) (it0 : Item)
    (hit : st.items.find? (fun it => it.id == itemId) = some it0)
    (hq : ¬ qty > availableQuantity st itemId now) :
    checkoutGo now contact ((itemId, qty) :: rest) st
      = match checkoutGo now contact rest (checkoutInsert st itemId qty now contact) with
        | Except.error e => Except.error e
        | Except.ok (stf, ids) => Except.ok (stf, st.nextId :: ids) := by
  simp only [checkoutGo, hit]
  rw [if_neg hq]

theorem checkoutGo_ok_shape (now : Nat) (contact : String) :
    ∀ (lines : List (Nat × Nat)) (st st' : SystemState) (ids : List Nat),
      checkoutGo now contact lines st = Except.ok (st', ids) →
      st'.items = st.items ∧ ids.length = lines.length ∧
        ∃ new, st'.reservations = st.reservations ++ new ∧
          List.Forall₂ (lineReservation now) lines new := by
  intro lines
  induction lines with
  | nil =>
      intro st st' ids h
      rw [checkoutGo_nil] at h
      simp only [Except.ok.injEq, Prod.mk.injEq] at h
      obtain ⟨h1, h2⟩ := h
      subst h1
      subst h2
      exact ⟨rfl, rfl, [], by simp, List.Forall₂.nil⟩
  | cons l rest ih =>
      intro st st' ids h
      obtain ⟨itemId, qty⟩ := l
      cases hit : st.items.find? (fun it => it.id == itemId) with
      | none =>
          rw [checkoutGo_cons_notFound now contact itemId qty rest st hit] at h
          exact absurd h (by simp)
      | some it0 =>
          by_cases hq : qty > availableQuantity st itemId now
          · rw [checkoutGo_cons_insufficient now contact itemId qty rest st it0 hit hq] at h
            exact absurd h (by simp)
          · rw [checkoutGo_cons_ok now contact itemId qty rest st it0 hit hq] at h
            cases hrec : checkoutGo now contact rest (checkoutInsert st itemId qty now contact) with
            | error e =>
                rw [hrec] at h
                exact absurd h (by simp)
            | ok p =>
                obtain ⟨stf, ids0⟩ := p
                rw [hrec] at h
                simp only [Except.ok.injEq, Prod.mk.injEq] at h
                obtain ⟨h1, h2⟩ := h
                subst h1
                subst h2
                obtain ⟨hitems, hlen, new', hres, hfa⟩ := ih _ _ _ hrec
                refine ⟨hitems, by simp [hlen], checkoutRow st itemId qty now contact :: new', ?_, ?_⟩
                · rw [hres]
                  show (checkoutInsert st itemId qty now contact).reservations ++ new'
                    = st.reservations ++ (checkoutRow st itemId qty now contact :: new')
                  unfold checkoutInsert
                  simp [List.append_assoc]
                · exact List.Forall₂.cons ⟨rfl, rfl, rfl, rfl, rfl⟩ hfa

theorem availableQuantity_checkoutInsert_le (st : SystemState) (itemId qty now : Nat)
    (contact : String) (i : Nat) :
    availableQuantity (checkoutInsert st itemId qty now contact) i now
      ≤ availableQuantity st i now := by
  unfold availableQuantity
  have hi : (checkoutInsert st itemId qty now contact).items = st.items := rfl
  rw [hi]
  cases h : st.items.find? (fun it => it.id == i) with
  | none => exact Nat.le_refl 0
  | some it =>
      show it.physicalStock
          - activeCommitted i now
            (st.reservations ++ [checkoutRow st itemId qty now contact])
        ≤ it.physicalStock - activeCommitted i now st.reservations
      rw [activeCommitted_append]
      omega

theorem checkoutInsert_items (st : SystemState) (itemId qty now : Nat) (contact : String) :
    (checkoutInsert st itemId qty now contact).items = st.items := rfl

theorem checkoutGo_insufficient (now : Nat) (contact : String) :
    ∀ (lines : List (Nat × Nat)) (st : SystemState),
      (∀ l ∈ lines, (st.items.find? (fun it => it.id == l.1)).isSome = true) →
      (∃ l ∈ lines, availableQuantity st l.1 now < l.2) →
      ∃ i q a, checkoutGo now contact lines st
        = Except.error (ResError.insufficientStock i q a) := by
  intro lines
  induction lines with
  | nil =>
      intro st _ hex
      simp at hex
  | cons l rest ih =>
      intro st hfound hex
      obtain ⟨itemId, qty⟩ := l
      have hhead : (st.items.find? (fun it => it.id == itemId)).isSome = true :=
        hfound _ (List.mem_cons_self _ _)
      rw [Option.isSome_iff_exists] at hhead
      obtain ⟨it0, hit0⟩ := hhead
      by_cases hq : qty > availableQuantity st itemId now
      · exact ⟨itemId, qty, availableQuantity st itemId now,
          checkoutGo_cons_insufficient now contact itemId qty rest st it0 hit0 hq⟩
      · rw [checkoutGo_cons_ok now contact itemId qty rest st it0 hit0 hq]
        have hex' : ∃ l ∈ rest,
            availableQuantity (checkoutInsert st itemId qty now contact) l.1 now < l.2 := by
          obtain ⟨l0, hl0, hlt⟩ := hex
          rcases List.mem_cons.mp hl0 with heq | hmem
          · exfalso
            rw [heq] at hlt
            have hlt' : availableQuantity st itemId now < qty := hlt
            omega
          · exact ⟨l0, hmem,
              Nat.lt_of_le_of_lt (availableQuantity_checkoutInsert_le st itemId qty now contact l0.1) hlt⟩
        have hfound' : ∀ l ∈ rest,
            ((checkoutInsert st itemId qty now contact).items.find?
              (fun it => it.id == l.1)).isSome = true := by
          intro l hl
          rw [checkoutInsert_items]
          exact hfound l (List.mem_cons_of_mem _ hl)
        obtain ⟨i, q, a, herr⟩ := ih (checkoutInsert st itemId qty now contact) hfound' hex'
        rw [herr]
        exact ⟨i, q, a, rfl⟩

/-- C4: checkout is all-or-nothing and touches no stock.  For a non-empty list
of lines with positive quantities on existing items: if some line's requested
quantity exceeds its item's `available_quantity`, the whole batch fails with
`InsufficientStockError` (so no reservation is created — an error returns no
new state); and on success the items (hence every `physical_stock`) are
untouched, one reservation identifier per line is returned, and the new
reservation rows are exactly one `active` row per line sharing
`created_at = now` and `expires_at = now + default_hold_duration`. -/
theorem checkout_spec (st : SystemState) (lines : List (Nat × Nat)) (contact : String)
    (now : Nat) (hne : lines ≠ []) (hqty : ∀ l ∈ lines, 1 ≤ l.2) :
    ((∀ l ∈ lines, (st.items.find? (fun it => it.id == l.1)).isSome = true) →
      (∃ l ∈ lines, availableQuantity st l.1 now < l.2) →
      ∃ i q a, checkout st lines contact now
        = Except.error (ResError.insufficientStock i q a))
    ∧ (∀ st' ids, checkout st lines contact now = Except.ok (st', ids) →
        st'.items = st.items ∧ ids.length = lines.length ∧
          ∃ new, st'.reservations = st.reservations ++ new ∧
            List.Forall₂ (lineReservation now) lines new) := by
  refine ⟨?_, ?_⟩
  · intro hfound hex
    exact checkoutGo_insufficient now contact lines st hfound hex
  · intro st' ids h
    exact checkoutGo_ok_shape now contact lines st st' ids h

/-- Witness for C4 at concrete inputs: on a 5-unit item, a batch asking 7
fails with `InsufficientStockError`, and a 2-line batch asking 2 and 3
succeeds with two fresh active holds and untouched items. -/
theorem checkout_spec_witness :
    (∃ i q a, checkout (mkStockState 5) [(0, 7)] "c" 0
        = Except.error (ResError.insufficientStock i q a))
      ∧ ∀ st' ids, checkout (mkStockState 5) [(0, 2), (0, 3)] "c" 0 = Except.ok (st', ids) →
          st'.items = (mkStockState 5).items ∧ ids.length = 2 ∧
            ∃ new, st'.reservations = (mkStockState 5).reservations ++ new ∧
              List.Forall₂ (lineReservation 0) [(0, 2), (0, 3)] new :=
  ⟨(checkout_spec (mkStockState 5) [(0, 7)] "c" 0 (by decide)
      (by intro l hl; simp at hl; subst hl; decide)).1
      (by intro l hl; simp at hl; subst hl; decide)
      ⟨(0, 7), by simp, by decide⟩,
    fun st' ids h =>
      (checkout_spec (mkStockState 5) [(0, 2), (0, 3)] "c" 0 (by decide)
        (by intro l hl; simp at hl; rcases hl with h' | h' <;> subst h' <;> decide)).2 st' ids h⟩

theorem isTerminal_ne_active (s : RStatus) (h : s.isTerminal = true) :
    ¬ s = RStatus.active := by
  cases s <;> simp_all [RStatus.isTerminal]

/-- C3: a reservation in a terminal status is immutable except for
`admin_notes`: `confirm`, `cancel` and `extend` on it all fail with
`InvalidStateTransitionError` (never a silent no-op), the expiry sweep leaves
its row untouched, appending admin notes changes only `admin_notes`, and a
successful checkout leaves the row untouched. -/
theorem terminal_immutable (st : SystemState) (rid : Nat) (r : Reservation)
    (now minutes : Nat) (notes note2 : String) (lines : List (Nat × Nat)) (contact : String)
    (hfind : st.reservations.find? (fun x => x.id == rid) = some r)
    (hterm : r.status.isTerminal = true) :
    confirmReservation st rid now notes
        = Except.error (ResError.invalidStateTransition rid r.status ResEvent.confirmEv)
      ∧ cancelReservation st rid now notes
          = Except.error (ResError.invalidStateTransition rid r.status ResEvent.cancelEv)
      ∧ extendReservation st rid now minutes
          = Except.error (ResError.invalidStateTransition rid r.status ResEvent.extendEv)
      ∧ (cleanupExpired st now).1.reservations.find? (fun x => x.id == rid) = some r
      ∧ (appendAdminNotes st rid note2).reservations.find? (fun x => x.id == rid)
          = some { r with adminNotes := r.adminNotes ++ [note2] }
      ∧ (∀ st' ids, checkout st lines contact now = Except.ok (st', ids) →
          st'.reservations.find? (fun x => x.id == rid) = some r) := by
  have hna : ¬ r.status = RStatus.active := isTerminal_ne_active r.status hterm
  refine ⟨?_, ?_, ?_, ?_, ?_, ?_⟩
  · simp only [confirmReservation, hfind]
    rw [if_neg hna]
  · simp only [cancelReservation, hfind]
    rw [if_neg hna]
  · simp only [extendReservation, hfind]
    rw [if_neg hna]
  · have hres : (cleanupExpired st now).1.reservations
        = st.reservations.map (sweepOne now) := rfl
    rw [hres, find?_map_of_pred (sweepOne now) _
      (fun x => by rw [sweepOne_id_eq]) st.reservations, hfind,
      Option.map_some', sweepOne_of_terminal now r hterm]
  · simp only [appendAdminNotes]
    rw [find?_updateFirst (fun x => x.id == rid)
      (fun x => { x with adminNotes := x.adminNotes ++ [note2] })
      (fun x hx => hx) st.reservations, hfind, Option.map_some']
  · intro st' ids h
    obtain ⟨-, -, new, hres, -⟩ := checkoutGo_ok_shape now contact lines st st' ids h
    rw [hres]
    exact find?_append_left _ r st.reservations new hfind

/-- Witness for C3 on a concrete state holding one confirmed reservation. -/
theorem terminal_immutable_witness :
    confirmReservation
        { items := [{ id := 0, physicalStock := 3, soldFlag := false, soldAt := none }],
          reservations :=
            [{ id := 4, itemRef := 0, quantity := 2, status := RStatus.confirmed,
               createdAt := 0, expiresAt := 30, confirmedAt := some 10, terminalAt := some 10,
               customerContact := "c", adminNotes := [] }],
          nextId := 5 } 4 20 "again"
      = Except.error
          (ResError.invalidStateTransition 4 RStatus.confirmed ResEvent.confirmEv) :=
  (terminal_immutable
    { items := [{ id := 0, physicalStock := 3, soldFlag := false, soldAt := none }],
      reservations :=
        [{ id := 4, itemRef := 0, quantity := 2, status := RStatus.confirmed,
           createdAt := 0, expiresAt := 30, confirmedAt := some 10, terminalAt := some 10,
           customerContact := "c", adminNotes := [] }],
      nextId := 5 } 4
    { id := 4, itemRef := 0, quantity := 2, status := RStatus.confirmed,
      createdAt := 0, expiresAt := 30, confirmedAt := some 10, terminalAt := some 10,
      customerContact := "c", adminNotes := [] }
    20 30 "again" "note" [] "c" (by decide) (by decide)).1

/-- C5: confirming an active reservation decrements the item's
`physical_stock` by the reservation's quantity, sets `sold_flag` (and
`sold_at`) exactly when the result is 0, records `confirmed_at`, and fails
with `InsufficientStockError` when `quantity > physical_stock`; concretely,
reserving 2 of 5 units then confirming leaves `physical_stock = 3` and (with
no other reservations) `available_quantity = 3`. -/
theorem confirm_spec (st : SystemState) (rid now : Nat) (notes : String)
    (r : Reservation) (it : Item)
    (hfind : st.reservations.find? (fun x => x.id == rid) = some r)
    (hact : r.status = RStatus.active)
    (hit : st.items.find? (fun i => i.id == r.itemRef) = some it) :
    (it.physicalStock < r.quantity →
      confirmReservation st rid now notes
        = Except.error (ResError.insufficientStock r.itemRef r.quantity it.physicalStock))
    ∧ (r.quantity ≤ it.physicalStock →
        ∃ st', confirmReservation st rid now notes = Except.ok st'
          ∧ st'.items.find? (fun i => i.id == r.itemRef) = some
              { it with
                physicalStock := it.physicalStock - r.quantity
                soldFlag := if it.physicalStock - r.quantity = 0 then true else it.soldFlag
                soldAt := if it.physicalStock - r.quantity = 0 then some now else it.soldAt }
          ∧ st'.reservations.find? (fun x => x.id == rid) = some
              { r with
                status := RStatus.confirmed
                confirmedAt := some now
                terminalAt := some now
                adminNotes := r.adminNotes ++ [notes] })
    ∧ confirmDemo = some (3, 3) := by
  refine ⟨?_, ?_, by decide⟩
  · intro hlt
    have hq : r.quantity > it.physicalStock := hlt
    simp only [confirmReservation, hfind, hit]
    rw [if_pos hact, if_pos hq]
  · intro hle
    have hnq : ¬ r.quantity > it.physicalStock := by omega
    simp only [confirmReservation, hfind, hit]
    rw [if_pos hact, if_neg hnq]
    refine ⟨_, rfl, ?_, ?_⟩
    · have hupd := find?_updateFirst (fun i => (i : Item).id == r.itemRef)
        (fun i =>
          { i with
            physicalStock := it.physicalStock - r.quantity
            soldFlag := if it.physicalStock - r.quantity = 0 then true else i.soldFlag
            soldAt := if it.physicalStock - r.quantity = 0 then some now else i.soldAt })
        (fun x hx => hx) st.items
      rw [hit, Option.map_some'] at hupd
      exact hupd
    · have hupd := find?_updateFirst (fun x => (x : Reservation).id == rid)
        (fun x =>
          { x with
            status := RStatus.confirmed
            confirmedAt := some now
            terminalAt := some now
            adminNotes := x.adminNotes ++ [notes] })
        (fun x hx => hx) st.reservations
      rw [hfind, Option.map_some'] at hupd
      exact hupd

/-- Witness for C5: the state after reserving 2 of 5 units; confirming either
fails (it cannot, since 2 ≤ 5) or succeeds with stock 3 as exhibited. -/
theorem confirm_spec_witness :
    ∃ st1, checkout (mkStockState 5) [(0, 2)] "customer" 0 = Except.ok (st1, [0])
      ∧ ∃ st', confirmReservation st1 0 10 "sold" = Except.ok st'
          ∧ st'.items.find? (fun i => i.id == 0) = some
              { id := 0, physicalStock := 3, soldFlag := false, soldAt := none } := by
  refine ⟨_, rfl, ?_⟩
  have h := (confirm_spec
    (checkoutInsert (mkStockState 5) 0 2 0 "customer") 0 10 "sold"
    (checkoutRow (mkStockState 5) 0 2 0 "customer")
    { id := 0, physicalStock := 5, soldFlag := false, soldAt := none }
    (by decide) (by decide) (by decide)).2.1 (by decide)
  obtain ⟨st', hok, hits, -⟩ := h
  exact ⟨st', hok, hits⟩

theorem sweepOne_eq (now : Nat) (r : Reservation) :
    sweepOne now r = if sweepDue now r
      then { r with status := RStatus.expired, terminalAt := some now } else r := rfl

theorem sweepOne_idem (now : Nat) (r : Reservation) :
    sweepOne now (sweepOne now r) = sweepOne now r := by
  rw [sweepOne_eq now (sweepOne now r), sweepDue_sweepOne]
  simp

/-- C6: the expiry sweep transitions exactly the `active` reservations with
`expires_at <= now` into `expired` (each such row gets `terminal_at`, every
other row — in particular every terminal row — is untouched, a no-op rather
than an error), it reports the count of transitioned rows, and it is
idempotent: a second run with no time passing returns the same state and
transitions zero rows. -/
theorem sweep_spec (st : SystemState) (now : Nat) :
    (∀ r ∈ st.reservations,
      (sweepDue now r = true →
        sweepOne now r = { r with status := RStatus.expired, terminalAt := some now })
      ∧ (sweepDue now r = false → sweepOne now r = r)
      ∧ (r.status.isTerminal = true → sweepOne now r = r))
    ∧ (cleanupExpired st now).1.reservations = st.reservations.map (sweepOne now)
    ∧ (cleanupExpired st now).2 = (st.reservations.filter (sweepDue now)).length
    ∧ cleanupExpired (cleanupExpired st now).1 now = ((cleanupExpired st now).1, 0) := by
  refine ⟨?_, rfl, rfl, ?_⟩
  · intro r _
    refine ⟨?_, ?_, sweepOne_of_terminal now r⟩
    · intro h
      rw [sweepOne_eq, if_pos h]
    · intro h
      rw [sweepOne_eq, if_neg (by simp [h])]
  · have hmap : (st.reservations.map (sweepOne now)).map (sweepOne now)
        = st.reservations.map (sweepOne now) := by
      rw [List.map_map]
      apply List.map_congr_left
      intro a _
      exact sweepOne_idem now a
    have hfil : (st.reservations.map (sweepOne now)).filter (sweepDue now) = [] := by
      rw [List.filter_eq_nil_iff]
      intro a ha
      obtain ⟨b, -, rfl⟩ := List.mem_map.mp ha
      simp [sweepDue_sweepOne]
    show ({ (cleanupExpired st now).1 with
        reservations := (st.reservations.map (sweepOne now)).map (sweepOne now) },
      ((st.reservations.map (sweepOne now)).filter (sweepDue now)).length)
      = ((cleanupExpired st now).1, 0)
    rw [hmap, hfil]
    rfl

/-- Witness for C6 on a concrete state with one due hold, one live hold and
one cancelled row. -/
theorem sweep_spec_witness :
    (cleanupExpired
        { items := [{ id := 0, physicalStock := 5, soldFlag := false, soldAt := none }],
          reservations :=
            [{ id := 0, itemRef := 0, quantity := 1, status := RStatus.active,
               createdAt := 0, expiresAt := 30, confirmedAt := none, terminalAt := none,
               customerContact := "a", adminNotes := [] },
             { id := 1, itemRef := 0, quantity := 2, status := RStatus.active,
               createdAt := 20, expiresAt := 50, confirmedAt := none, terminalAt := none,
               customerContact := "b", adminNotes := [] },
             { id := 2, itemRef := 0, quantity := 1, status := RStatus.cancelled,
               createdAt := 0, expiresAt := 30, confirmedAt := none, terminalAt := some 5,
               customerContact := "c", adminNotes := [] }],
          nextId := 3 } 40).2 = 1
      ∧ cleanupExpired
          (cleanupExpired
            { items := [{ id := 0, physicalStock := 5, soldFlag := false, soldAt := none }],
              reservations :=
                [{ id := 0, itemRef := 0, quantity := 1, status := RStatus.active,
                   createdAt := 0, expiresAt := 30, confirmedAt := none, terminalAt := none,
                   customerContact := "a", adminNotes := [] },
                 { id := 1, itemRef := 0, quantity := 2, status := RStatus.active,
                   createdAt := 20, expiresAt := 50, confirmedAt := none, terminalAt := none,
                   customerContact := "b", adminNotes := [] },
                 { id := 2, itemRef := 0, quantity := 1, status := RStatus.cancelled,
                   createdAt := 0, expiresAt := 30, confirmedAt := none, terminalAt := some 5,
                   customerContact := "c", adminNotes := [] }],
              nextId := 3 } 40).1 40
        = ((cleanupExpired
            { items := [{ id := 0, physicalStock := 5, soldFlag := false, soldAt := none }],
              reservations :=
                [{ id := 0, itemRef := 0, quantity := 1, status := RStatus.active,
                   createdAt := 0, expiresAt := 30, confirmedAt := none, terminalAt := none,
                   customerContact := "a", adminNotes := [] },
                 { id := 1, itemRef := 0, quantity := 2, status := RStatus.active,
                   createdAt := 20, expiresAt := 50, confirmedAt := none, terminalAt := none,
                   customerContact := "b", adminNotes := [] },
                 { id := 2, itemRef := 0, quantity := 1, status := RStatus.cancelled,
                   createdAt := 0, expiresAt := 30, confirmedAt := none, terminalAt := some 5,
                   customerContact := "c", adminNotes := [] }],
              nextId := 3 } 40).1, 0) :=
  ⟨by decide,
    (sweep_spec
      { items := [{ id := 0, physicalStock := 5, soldFlag := false, soldAt := none }],
        reservations :=
          [{ id := 0, itemRef := 0, quantity := 1, status := RStatus.active,
             createdAt := 0, expiresAt := 30, confirmedAt := none, terminalAt := none,
             customerContact := "a", adminNotes := [] },
           { id := 1, itemRef := 0, quantity := 2, status := RStatus.active,
             createdAt := 20, expiresAt := 50, confirmedAt := none, terminalAt := none,
             customerContact := "b", adminNotes := [] },
           { id := 2, itemRef := 0, quantity := 1, status := RStatus.cancelled,
             createdAt := 0, expiresAt := 30, confirmedAt := none, terminalAt := some 5,
             customerContact := "c", adminNotes := [] }],
        nextId := 3 } 40).2.2.2⟩

/-- C7: cancelling an active reservation mutates no stock — the items list
(hence every `physical_stock`) is unchanged, the reservation becomes
`cancelled` with `terminal_at` recorded — and the hold stops counting against
availability: reserving 2 of 5 then cancelling restores
`available_quantity = 5` with `physical_stock` still 5. -/
theorem cancel_spec (st : SystemState) (rid now : Nat) (notes : String) (r : Reservation)
    (hfind : st.reservations.find? (fun x => x.id == rid) = some r)
    (hact : r.status = RStatus.active) :
    (∃ st', cancelReservation st rid now notes = Except.ok st'
      ∧ st'.items = st.items
      ∧ st'.reservations.find? (fun x => x.id == rid) = some
          { r with
            status := RStatus.cancelled
            terminalAt := some now
            adminNotes := r.adminNotes ++ [notes] })
    ∧ cancelDemo = some (5, 5) := by
  refine ⟨?_, by decide⟩
  simp only [cancelReservation, hfind]
  rw [if_pos hact]
  refine ⟨_, rfl, rfl, ?_⟩
  have hupd := find?_updateFirst (fun x => (x : Reservation).id == rid)
    (fun x =>
      { x with
        status := RStatus.cancelled
        terminalAt := some now
        adminNotes := x.adminNotes ++ [notes] })
    (fun x hx => hx) st.reservations
  rw [hfind, Option.map_some'] at hupd
  exact hupd

/-- Witness for C7: cancelling the hold created by reserving 2 of 5 units. -/
theorem cancel_spec_witness :
    ∃ st', cancelReservation (checkoutInsert (mkStockState 5) 0 2 0 "customer") 0 5 "released"
        = Except.ok st'
      ∧ st'.items = (mkStockState 5).items :=
  ⟨((cancel_spec (checkoutInsert (mkStockState 5) 0 2 0 "customer") 0 5 "released"
      (checkoutRow (mkStockState 5) 0 2 0 "customer")
      (by decide) (by decide)).1).choose,
    ((cancel_spec (checkoutInsert (mkStockState 5) 0 2 0 "customer") 0 5 "released"
      (checkoutRow (mkStockState 5) 0 2 0 "customer")
      (by decide) (by decide)).1).choose_spec.1,
    ((cancel_spec (checkoutInsert (mkStockState 5) 0 2 0 "customer") 0 5 "released"
      (checkoutRow (mkStockState 5) 0 2 0 "customer")
      (by decide) (by decide)).1).choose_spec.2.1⟩

/-- C8: extending an active reservation changes only `expires_at` (status
stays `active`), using reset-from-now semantics `expires_at = now + minutes`;
concretely a reservation created at T = 0 with a 30-minute hold, extended by
30 at T+20, has expiry T+50, is still active at T+45 (the sweep transitions 0
rows), and is expired by the sweep at T+51 (1 row). -/
theorem extend_spec (st : SystemState) (rid now minutes : Nat) (r : Reservation)
    (hfind : st.reservations.find? (fun x => x.id == rid) = some r)
    (hact : r.status = RStatus.active) :
    (∃ st', extendReservation st rid now minutes = Except.ok st'
      ∧ st'.items = st.items
      ∧ st'.reservations.find? (fun x => x.id == rid) = some
          { r with expiresAt := now + minutes })
    ∧ extendDemo = some (50, 0, true, 1, true) := by
  refine ⟨?_, by decide⟩
  simp only [extendReservation, hfind]
  rw [if_pos hact]
  refine ⟨_, rfl, rfl, ?_⟩
  have hupd := find?_updateFirst (fun x => (x : Reservation).id == rid)
    (fun x => { x with expiresAt := now + minutes })
    (fun x hx => hx) st.reservations
  rw [hfind, Option.map_some'] at hupd
  exact hupd

/-- Witness for C8: extending the hold created by reserving 1 of 5 units. -/
theorem extend_spec_witness :
    ∃ st', extendReservation (checkoutInsert (mkStockState 5) 0 1 0 "customer") 0 20 30
        = Except.ok st'
      ∧ st'.items = (mkStockState 5).items :=
  ⟨((extend_spec (checkoutInsert (mkStockState 5) 0 1 0 "customer") 0 20 30
      (checkoutRow (mkStockState 5) 0 1 0 "customer")
      (by decide) (by decide)).1).choose,
    ((extend_spec (checkoutInsert (mkStockState 5) 0 1 0 "customer") 0 20 30
      (checkoutRow (mkStockState 5) 0 1 0 "customer")
      (by decide) (by decide)).1).choose_spec.1,
    ((extend_spec (checkoutInsert (mkStockState 5) 0 1 0 "customer") 0 20 30
      (checkoutRow (mkStockState 5) 0 1 0 "customer")
      (by decide) (by decide)).1).choose_spec.2.1⟩

theorem checkout_single_fail (st : SystemState) (i now : Nat) (contact : String) (it : Item)
    (hit : st.items.find? (fun x => x.id == i) = some it)
    (hz : availableQuantity st i now = 0) :
    checkout st [(i, 1)] contact now
      = Except.error (ResError.insufficientStock i 1 (availableQuantity st i now)) := by
  unfold checkout
  exact checkoutGo_cons_insufficient now contact i 1 [] st it hit (by omega)

theorem checkout_single_ok (st : SystemState) (i now : Nat) (contact : String) (it : Item)
    (hit : st.items.find? (fun x => x.id == i) = some it)
    (hpos : 1 ≤ availableQuantity st i now) :
    checkout st [(i, 1)] contact now
      = Except.ok (checkoutInsert st i 1 now contact, [st.nextId]) := by
  unfold checkout
  rw [checkoutGo_cons_ok now contact i 1 [] st it hit (by omega), checkoutGo_nil]

theorem avail_after_single (st : SystemState) (i now : Nat) (contact : String) (it : Item)
    (hit : st.items.find? (fun x => x.id == i) = some it) :
    availableQuantity (checkoutInsert st i 1 now contact) i now
      = availableQuantity st i now - 1 := by
  unfold availableQuantity
  rw [checkoutInsert_items, hit]
  show it.physicalStock
      - activeCommitted i now (st.reservations ++ [checkoutRow st i 1 now contact])
    = it.physicalStock - activeCommitted i now st.reservations - 1
  rw [activeCommitted_append]
  have hc : activeCommitted i now [checkoutRow st i 1 now contact] = 1 := by
    show (if i = i ∧ RStatus.active = RStatus.active ∧ now < now + defaultHoldDuration
      then 1 else 0) + 0 = 1
    rw [if_pos ⟨rfl, rfl, by unfold defaultHoldDuration; omega⟩]
  rw [hc]
  omega

theorem runKCheckouts_counts (i now : Nat) (it : Item) :
    ∀ (K : Nat) (st : SystemState),
      st.items.find? (fun x => x.id == i) = some it →
      (runKCheckouts i now K st).2.1 = min K (availableQuantity st i now)
        ∧ (runKCheckouts i now K st).2.2 = K - min K (availableQuantity st i now) := by
  intro K
  induction K with
  | zero =>
      intro st _
      constructor <;> simp [runKCheckouts]
  | succ k ih =>
      intro st hit
      by_cases hz : availableQuantity st i now = 0
      · have hfail := checkout_single_fail st i now "" it hit hz
        obtain ⟨ih1, ih2⟩ := ih st hit
        simp only [runKCheckouts, hfail]
        rw [if_pos (show isInsufficientErr
          (ResError.insufficientStock i 1 (availableQuantity st i now)) = true from rfl)]
        constructor
        · show (runKCheckouts i now k st).2.1 = min (k + 1) (availableQuantity st i now)
          rw [ih1, hz]
          omega
        · show (runKCheckouts i now k st).2.2 + 1
            = (k + 1) - min (k + 1) (availableQuantity st i now)
          rw [ih2, hz]
          omega
      · have hpos : 1 ≤ availableQuantity st i now := by omega
        have hok := checkout_single_ok st i now "" it hit hpos
        have hit' : (checkoutInsert st i 1 now "").items.find? (fun x => x.id == i)
            = some it := by
          rw [checkoutInsert_items]
          exact hit
        obtain ⟨ih1, ih2⟩ := ih (checkoutInsert st i 1 now "") hit'
        have havail := avail_after_single st i now "" it hit
        simp only [runKCheckouts, hok]
        constructor
        · show (runKCheckouts i now k (checkoutInsert st i 1 now "")).2.1 + 1
            = min (k + 1) (availableQuantity st i now)
          rw [ih1, havail]
          omega
        · show (runKCheckouts i now k (checkoutInsert st i 1 now "")).2.2
            = (k + 1) - min (k + 1) (availableQuantity st i now)
          rw [ih2, havail]
          omega

/-- C1: no-oversell.  For an item with `physical_stock = N` and K > N
concurrent checkout attempts each requesting 1 unit — modelled, per the
spec's atomicity and per-item linearizability (§5), as the K identical atomic
calls executed in a serial order — exactly N of the calls succeed and the
remaining K − N fail with `InsufficientStockError`; in particular two calls
racing for the last unit never both succeed. -/
theorem no_oversell (N K now : Nat) (hK : N < K) :
    (runKCheckouts 0 now K (mkStockState N)).2.1 = N
      ∧ (runKCheckouts 0 now K (mkStockState N)).2.2 = K - N := by
  have havail : availableQuantity (mkStockState N) 0 now = N := rfl
  obtain ⟨h1, h2⟩ := runKCheckouts_counts 0 now
    { id := 0, physicalStock := N, soldFlag := false, soldAt := none } K (mkStockState N) rfl
  rw [havail] at h1 h2
  constructor
  · rw [h1]
    omega
  · rw [h2]
    omega

/-- Witness for C1: two checkout calls racing for the last unit — exactly one
succeeds and the other fails with `InsufficientStockError`. -/
theorem no_oversell_witness :
    (runKCheckouts 0 0 2 (mkStockState 1)).2.1 = 1
      ∧ (runKCheckouts 0 0 2 (mkStockState 1)).2.2 = 1 :=
  no_oversell 1 2 0 (by decide)

end BgCatalog
